import Mathlib

/-!
# Verification of the Pong gameplay core

Shallow embedding of the deterministic gameplay core of the `Corysia/pong`
repository: configuration constants (`Settings.ts`), the win-condition
evaluator (`WinCondition.ts`), keyboard input state (`Input.ts`), ball and
paddle physics (`types.ts` Ball, `Paddle.ts`), the circle-vs-rectangle
collision test (`collision.ts`), and the orchestrator tick (`Game.ts`,
latest revision, the one with the `AudioManager`).

Numbers that are TypeScript floats are modelled as real numbers; scores are
natural numbers.  `Math.random` inputs of `serve` are threaded as explicit
real parameters.  Side-effecting calls into the audio/UI collaborators are
modelled as an emitted event list.
-/

open scoped Classical

noncomputable section

/-! ## Settings (from `Settings.ts`, object `SETTINGS`) -/

namespace SETTINGS

def worldWidth : ℝ := 50
def worldDepth : ℝ := 30
def paddleWidthX : ℝ := 1.2
def paddleLengthZ : ℝ := 8
def paddleSpeed : ℝ := 28
def ballRadius : ℝ := 0.7
def ballSpeedStart : ℝ := 18
def ballSpeedMax : ℝ := 40
def bounceAngleMaxDeg : ℝ := 45
def speedGainPerHit : ℝ := 1.06
def ballY : ℝ := 0.8
def aiMaxSpeed : ℝ := 20
def trackOnlyWhenIncoming : Bool := true
def returnToCenterSpeed : ℝ := 10
def gameMaxScore : ℕ := 11
def gameDeuce : ℕ := 10
def gameSkunk : ℕ := 6
def wallPadding : ℝ := 2

end SETTINGS

/-- `clamp` from `Settings.ts`: `(v, min, max) => Math.max(min, Math.min(max, v))`. -/
def clamp (v lo hi : ℝ) : ℝ := max lo (min hi v)

/-- `radians` from `Settings.ts`: `deg * Math.PI / 180`. -/
def radians (deg : ℝ) : ℝ := deg * (Real.pi / 180)

/-- `Bounds` from `types.ts`. -/
structure Bounds where
  left : ℝ
  right : ℝ
  back : ℝ
  front : ℝ

/-- The bounds built by `Arena`'s constructor from `SETTINGS.world`. -/
def arenaBounds : Bounds :=
  { left := -(SETTINGS.worldWidth / 2)
    right := SETTINGS.worldWidth / 2
    back := -(SETTINGS.worldDepth / 2)
    front := SETTINGS.worldDepth / 2 }

/-! ## Win-condition evaluator (from `WinCondition.ts`) -/

/-- The verdict values of the static class `WinCondition`. -/
inductive WinVerdict where
  | Deuce
  | Player
  | AI
  | Continue
deriving DecidableEq, Repr

namespace WinCondition

/-- `WinCondition.check(playerScore, aiScore)` from `WinCondition.ts`,
translated branch for branch.  Scores are the non-negative integers the
caller supplies; `playerScore - aiScore > 1` over TS numbers agrees with
truncated subtraction on naturals. -/
def check (playerScore aiScore : ℕ) : WinVerdict :=
  if playerScore = SETTINGS.gameDeuce ∧ aiScore = SETTINGS.gameDeuce then
    .Deuce
  else if playerScore ≥ SETTINGS.gameDeuce ∧ aiScore ≥ SETTINGS.gameDeuce
      ∧ playerScore > aiScore + 1 then
    .Player
  else if playerScore ≥ SETTINGS.gameDeuce ∧ aiScore ≥ SETTINGS.gameDeuce
      ∧ playerScore + 1 < aiScore then
    .AI
  else if playerScore = SETTINGS.gameSkunk ∧ aiScore = 0 then
    .Player
  else if aiScore = SETTINGS.gameSkunk ∧ playerScore = 0 then
    .AI
  else if playerScore = SETTINGS.gameMaxScore ∧ playerScore - aiScore > 1 then
    .Player
  else if aiScore = SETTINGS.gameMaxScore ∧ aiScore - playerScore > 1 then
    .AI
  else
    .Continue

end WinCondition

/-- The ordered five-step verdict definition stated by the specification
(deuceThreshold 10, skunkThreshold 6, maxScore 11): (1) both exactly at the
deuce threshold is Deuce; (2) else if both at least at the deuce threshold,
a side leading by more than 1 wins; (3) else a side at the skunk threshold
against a zero opponent wins; (4) else a side exactly at maxScore leading
by more than 1 wins; (5) otherwise Continue. -/
def checkSpecFiveStep (playerScore aiScore : ℕ) : WinVerdict :=
  if playerScore = 10 ∧ aiScore = 10 then
    .Deuce
  else if playerScore ≥ 10 ∧ aiScore ≥ 10 then
    (if playerScore > aiScore + 1 then .Player
     else if aiScore > playerScore + 1 then .AI
     else .Continue)
  else if playerScore = 6 ∧ aiScore = 0 then
    .Player
  else if aiScore = 6 ∧ playerScore = 0 then
    .AI
  else if playerScore = 11 ∧ playerScore > aiScore + 1 then
    .Player
  else if aiScore = 11 ∧ aiScore > playerScore + 1 then
    .AI
  else
    .Continue

/-! ## Input manager (from `Input.ts`) -/

/-- The mutable flags of `InputManager`. -/
structure InputState where
  up : Bool
  down : Bool
  servePressed : Bool
deriving DecidableEq, Repr

namespace InputState

/-- `InputManager.onKeyDown`, translated from the three `if` statements on
`e.code`. -/
def onKeyDown (s : InputState) (code : String) : InputState :=
  let s := if code = "ArrowUp" ∨ code = "KeyW" then { s with up := true } else s
  let s := if code = "ArrowDown" ∨ code = "KeyS" then { s with down := true } else s
  if code = "Space" then { s with servePressed := true } else s

/-- `InputManager.onKeyUp`. -/
def onKeyUp (s : InputState) (code : String) : InputState :=
  let s := if code = "ArrowUp" ∨ code = "KeyW" then { s with up := false } else s
  if code = "ArrowDown" ∨ code = "KeyS" then { s with down := false } else s

/-- `InputManager.consumeServePressed`: returns the current flag and clears
it. -/
def consumeServePressed (s : InputState) : Bool × InputState :=
  (s.servePressed, { s with servePressed := false })

end InputState

/-! ## Ball (from `types.ts`, class `Ball`) -/

/-- The gameplay state of the `Ball`: mesh position (x, y, z) and the
velocity fields `vx`, `vz`. -/
structure BallState where
  x : ℝ
  y : ℝ
  z : ℝ
  vx : ℝ
  vz : ℝ

namespace Ball

/-- `Ball.resetPosition`: recenter at (0, SETTINGS.ball.y, 0) and zero the
velocity. -/
def resetPosition (_b : BallState) : BallState :=
  { x := 0, y := SETTINGS.ballY, z := 0, vx := 0, vz := 0 }

/-- `Ball.serve`: reset, pick a direction from the first random draw, a
launch angle from the second, and set the velocity from `speedStart`.  The
two `Math.random()` results are threaded as the parameters `rand1`,
`rand2`. -/
def serve (b : BallState) (rand1 rand2 : ℝ) : BallState :=
  let b := resetPosition b
  let dirX : ℝ := if rand1 < 0.5 then -1 else 1
  let angle := (rand2 * 2 - 1) * (SETTINGS.bounceAngleMaxDeg * 0.6)
  let speed := SETTINGS.ballSpeedStart
  { b with vx := Real.cos (radians angle) * speed * dirX
           vz := Real.sin (radians angle) * speed }

/-- `Ball.update(dt, bounds)`: integrate the position by velocity times dt,
re-pin y, then bounce off the front/back z-walls.  The TypeScript function
body has no `return` statement, so this models exactly the state change;
see `updateReturnValue` for what a caller receives. -/
def update (b : BallState) (dt : ℝ) (bounds : Bounds) : BallState :=
  let b := { b with x := b.x + b.vx * dt, z := b.z + b.vz * dt, y := SETTINGS.ballY }
  let r := SETTINGS.ballRadius
  if b.z + r > bounds.front then
    { b with z := bounds.front - r, vz := -b.vz }
  else if b.z - r < bounds.back then
    { b with z := bounds.back + r, vz := -b.vz }
  else
    b

/-- The value a caller of `Ball.update` receives: the function body in
`types.ts` contains no `return` statement, so every call evaluates to
`undefined`, modelled as `none` (a returned boolean would be `some b`). -/
def updateReturnValue (_b : BallState) (_dt : ℝ) (_bounds : Bounds) : Option Bool :=
  none

/-- `Ball.speedUpAndDeflect(outgoingDirX, impactAngleRad)`: scale the speed
magnitude (`Math.hypot(vx, vz)`) by the per-hit gain, cap at `speedMax`,
and recompose the velocity from the impact angle and the outgoing x
direction. -/
def speedUpAndDeflect (b : BallState) (outgoingDirX impactAngleRad : ℝ) : BallState :=
  let speed := min (Real.sqrt (b.vx ^ 2 + b.vz ^ 2) * SETTINGS.speedGainPerHit)
    SETTINGS.ballSpeedMax
  { b with vx := Real.cos impactAngleRad * speed * outgoingDirX
           vz := Real.sin impactAngleRad * speed }

end Ball

/-- The ball's speed magnitude `Math.hypot(vx, vz)`. -/
def speedOf (b : BallState) : ℝ := Real.sqrt (b.vx ^ 2 + b.vz ^ 2)

/-- The condition under which `Ball.update` takes one of its two wall-bounce
branches: after integrating z by `vz * dt`, the ball's edge is past the
front wall or past the back wall. -/
def WallBounced (b : BallState) (dt : ℝ) (bounds : Bounds) : Prop :=
  (b.z + b.vz * dt) + SETTINGS.ballRadius > bounds.front ∨
  (b.z + b.vz * dt) - SETTINGS.ballRadius < bounds.back

/-! ## Paddle (from `Paddle.ts`) -/

/-- The gameplay state of a `Paddle`: its fixed x position and movable z
position. -/
structure Paddle where
  x : ℝ
  z : ℝ

namespace Paddle

/-- `Paddle.setZ`. -/
def setZ (p : Paddle) (z : ℝ) : Paddle := { p with z := z }

/-- `Paddle.clampWithin(bounds)`: clamp z to
`[back + lengthZ/2, front - lengthZ/2]`. -/
def clampWithin (p : Paddle) (bounds : Bounds) : Paddle :=
  let half := SETTINGS.paddleLengthZ / 2
  { p with z := clamp p.z (bounds.back + half) (bounds.front - half) }

/-- `Paddle.updatePlayer(dt, up, down, bounds)`: move by `speed * dt` for
each held key (both may apply), then clamp. -/
def updatePlayer (p : Paddle) (dt : ℝ) (up down : Bool) (bounds : Bounds) : Paddle :=
  let p := if up then { p with z := p.z + SETTINGS.paddleSpeed * dt } else p
  let p := if down then { p with z := p.z - SETTINGS.paddleSpeed * dt } else p
  clampWithin p bounds

/-- `Paddle.updateAI(dt, targetZ, speed, bounds)`: step toward the target
by at most `speed * dt`, then clamp. -/
def updateAI (p : Paddle) (dt targetZ speed : ℝ) (bounds : Bounds) : Paddle :=
  let dz := targetZ - p.z
  let maxStep := speed * dt
  let step := clamp dz (-maxStep) maxStep
  clampWithin { p with z := p.z + step } bounds

end Paddle

/-! ## Collision utility (from `collision.ts`) -/

/-- `circleRectCollideXZ(cx, cz, r, rx, rz, rw, rd)`: clamp the circle
center to the rectangle's extents to find the closest rectangle point, and
test squared distance against the squared radius. -/
def circleRectCollideXZ (cx cz r rx rz rw rd : ℝ) : Prop :=
  let halfW := rw / 2
  let halfD := rd / 2
  let closestX := clamp cx (rx - halfW) (rx + halfW)
  let closestZ := clamp cz (rz - halfD) (rz + halfD)
  let dx := cx - closestX
  let dz := cz - closestZ
  dx * dx + dz * dz ≤ r * r

/-! ## Orchestrator (from `Game.ts`, the revision with `AudioManager`)

The orchestrator's calls into its audio and UI collaborators are modelled
as emitted events, in source order.  `Effect.winCheck` is the event a call
`WinCondition.check(p, a)` from the orchestrator would emit; the tick
defined below emits the events of the calls the source actually makes. -/

/-- One side-effecting call the orchestrator makes on its collaborators. -/
inductive Effect where
  | audioUnlock
  | clearCenterMessage
  | playGreenPaddle
  | playRedPaddle
  | setScore (player ai : ℕ)
  | setCenterMessage (msg : String)
  | playPlayerScore
  | playAIScore
  | playWall
  | winCheck (player ai : ℕ)
deriving DecidableEq, Repr

/-- Whether an effect is an invocation of the win-condition evaluator. -/
def Effect.isWinCheck : Effect → Bool
  | .winCheck _ _ => true
  | _ => false

/-- The mutable state the `Game` orchestrator owns: pause flag, the two
score counters, both paddles, the ball, and the input flags. -/
structure GameState where
  paused : Bool
  playerScore : ℕ
  aiScore : ℕ
  leftPaddle : Paddle
  rightPaddle : Paddle
  ball : BallState
  input : InputState

namespace Game

/-- `Game.serveIfRequested`: while paused, consume the serve flag (the
`&&` short-circuit consumes only while paused); on a serve, unlock audio,
serve the ball, unpause, and clear the center message. -/
def serveIfRequested (s : GameState) (rand1 rand2 : ℝ) : GameState × List Effect :=
  if s.paused then
    let pressed := (s.input.consumeServePressed).1
    let input2 := (s.input.consumeServePressed).2
    if pressed then
      ({ s with input := input2
                ball := Ball.serve s.ball rand1 rand2
                paused := false },
       [Effect.audioUnlock, Effect.clearCenterMessage])
    else
      ({ s with input := input2 }, [])
  else
    (s, [])

/-- `Game.handlePaddleCollisions`: the left-paddle branch, then the
right-paddle branch on the resulting state, each deflecting the ball and
playing the side's paddle sound. -/
def handlePaddleCollisions (s : GameState) : GameState × List Effect :=
  let r := SETTINGS.ballRadius
  let leftHit :=
    if s.ball.vx < 0 ∧ circleRectCollideXZ s.ball.x s.ball.z r
        s.leftPaddle.x s.leftPaddle.z SETTINGS.paddleWidthX SETTINGS.paddleLengthZ then
      let halfLen := SETTINGS.paddleLengthZ / 2
      let impact := (s.ball.z - s.leftPaddle.z) / halfLen
      let angle := clamp impact (-1) 1 * radians SETTINGS.bounceAngleMaxDeg
      let b := { s.ball with x := s.leftPaddle.x + (SETTINGS.paddleWidthX / 2 + r + 0.01) }
      ({ s with ball := Ball.speedUpAndDeflect b 1 angle }, [Effect.playGreenPaddle])
    else
      (s, [])
  let s1 := leftHit.1
  let rightHit :=
    if s1.ball.vx > 0 ∧ circleRectCollideXZ s1.ball.x s1.ball.z r
        s1.rightPaddle.x s1.rightPaddle.z SETTINGS.paddleWidthX SETTINGS.paddleLengthZ then
      let halfLen := SETTINGS.paddleLengthZ / 2
      let impact := (s1.ball.z - s1.rightPaddle.z) / halfLen
      let angle := clamp impact (-1) 1 * radians SETTINGS.bounceAngleMaxDeg
      let b := { s1.ball with x := s1.rightPaddle.x - (SETTINGS.paddleWidthX / 2 + r + 0.01) }
      ({ s1 with ball := Ball.speedUpAndDeflect b (-1) angle }, [Effect.playRedPaddle])
    else
      (s1, [])
  (rightHit.1, leftHit.2 ++ rightHit.2)

/-- `Game.resetPoint(message)`: pause, recenter the ball and both paddles,
push the score and the message to the UI. -/
def resetPoint (s : GameState) (message : String) : GameState × List Effect :=
  let s2 := { s with paused := true
                     ball := Ball.resetPosition s.ball
                     leftPaddle := Paddle.setZ s.leftPaddle 0
                     rightPaddle := Paddle.setZ s.rightPaddle 0 }
  (s2, [Effect.setScore s2.playerScore s2.aiScore, Effect.setCenterMessage message])

/-- `Game.handleScoring`: when the ball's far edge crosses the right
boundary the player scores, when it crosses the left boundary the AI
scores; the score side effect sound plays after `resetPoint`. -/
def handleScoring (s : GameState) : GameState × List Effect :=
  let r := SETTINGS.ballRadius
  let b := arenaBounds
  if s.ball.x - r > b.right then
    let s1 := { s with playerScore := s.playerScore + 1 }
    let reset := resetPoint s1 "Point! Press Space to serve"
    (reset.1, reset.2 ++ [Effect.playPlayerScore])
  else if s.ball.x + r < b.left then
    let s1 := { s with aiScore := s.aiScore + 1 }
    let reset := resetPoint s1 "Point! Press Space to serve"
    (reset.1, reset.2 ++ [Effect.playAIScore])
  else
    (s, [])

/-- `Game.updateAI(dt)`: track the ball only when it is incoming
(`vx > 0`), otherwise drift back to center at the slower speed. -/
def updateAI (s : GameState) (dt : ℝ) : GameState :=
  let incoming := s.ball.vx > 0
  let targetZ := if SETTINGS.trackOnlyWhenIncoming ∧ ¬incoming then 0 else s.ball.z
  let speed := if SETTINGS.trackOnlyWhenIncoming ∧ ¬incoming then
    SETTINGS.returnToCenterSpeed else SETTINGS.aiMaxSpeed
  { s with rightPaddle := Paddle.updateAI s.rightPaddle dt targetZ speed arenaBounds }

/-- `Game.tick` of the latest revision: serve if requested; while running,
update the player paddle, the AI paddle, the ball, paddle collisions and
scoring; then unconditionally call `Ball.update` a second time, binding
its (undefined) return value to `wallBounce` and playing the wall sound
when that value is truthy. -/
def tick (s : GameState) (dt rand1 rand2 : ℝ) : GameState × List Effect :=
  let served := serveIfRequested s rand1 rand2
  let s1 := served.1
  let running :=
    if s1.paused = false then
      let s2 := { s1 with leftPaddle :=
        Paddle.updatePlayer s1.leftPaddle dt s1.input.up s1.input.down arenaBounds }
      let s3 := updateAI s2 dt
      let s4 := { s3 with ball := Ball.update s3.ball dt arenaBounds }
      let collided := handlePaddleCollisions s4
      let scored := handleScoring collided.1
      (scored.1, collided.2 ++ scored.2)
    else
      (s1, [])
  let s5 := running.1
  let wallBounce := Ball.updateReturnValue s5.ball dt arenaBounds
  let s6 := { s5 with ball := Ball.update s5.ball dt arenaBounds }
  let wallFx := if wallBounce.getD false then [Effect.playWall] else []
  (s6, served.2 ++ running.2 ++ wallFx)

end Game

/-! ## Theorems for the claims -/

/-- C3: For every pair of non-negative integer scores, `WinCondition.check`
returns the verdict given by the ordered five-step definition with
deuceThreshold 10, skunkThreshold 6, maxScore 11, with the deuce-exact
check taking precedence over the two-point-lead check. -/
theorem C3_check_matches_five_step_spec (playerScore aiScore : ℕ) :
    WinCondition.check playerScore aiScore = checkSpecFiveStep playerScore aiScore := by
  unfold WinCondition.check checkSpecFiveStep SETTINGS.gameDeuce SETTINGS.gameSkunk
    SETTINGS.gameMaxScore
  split_ifs <;> first | rfl | (exfalso; omega)

/-- C9: `consumeServePressed` has consume-on-read semantics: each call
returns the current serve flag and clears it; a second consecutive call
returns `false`; after a serve trigger (`Space` key-down) between reads,
exactly one further read returns `true` and the one after it `false`. -/
theorem C9_consume_serve_on_read (s : InputState) :
    (s.consumeServePressed).1 = s.servePressed ∧
    ((s.consumeServePressed).2).servePressed = false ∧
    (((s.consumeServePressed).2).consumeServePressed).1 = false ∧
    ((((s.consumeServePressed).2).onKeyDown "Space").consumeServePressed).1 = true ∧
    ((((((s.consumeServePressed).2).onKeyDown "Space").consumeServePressed).2).consumeServePressed).1
      = false := by
  simp [InputState.consumeServePressed, InputState.onKeyDown]

/-- The clamped z of `clampWithin` lies within the paddle band when the
band is non-empty. -/
theorem clampWithin_mem (p : Paddle) (bounds : Bounds)
    (h : bounds.back + SETTINGS.paddleLengthZ / 2 ≤ bounds.front - SETTINGS.paddleLengthZ / 2) :
    bounds.back + SETTINGS.paddleLengthZ / 2 ≤ (p.clampWithin bounds).z ∧
    (p.clampWithin bounds).z ≤ bounds.front - SETTINGS.paddleLengthZ / 2 := by
  unfold Paddle.clampWithin clamp
  exact ⟨le_max_left _ _, max_le h (min_le_left _ _)⟩

/-- C5: after any `updatePlayer` or `updateAI` call, for any dt, input
flags, target and speed, the paddle's z lies within
`[back + halfLength, front - halfLength]`, assuming the bounds satisfy
`back + halfLength ≤ front - halfLength`. -/
theorem C5_paddle_stays_in_band (p q : Paddle) (dt targetZ speed : ℝ) (up down : Bool)
    (bounds : Bounds)
    (h : bounds.back + SETTINGS.paddleLengthZ / 2 ≤ bounds.front - SETTINGS.paddleLengthZ / 2) :
    (bounds.back + SETTINGS.paddleLengthZ / 2 ≤ (p.updatePlayer dt up down bounds).z ∧
      (p.updatePlayer dt up down bounds).z ≤ bounds.front - SETTINGS.paddleLengthZ / 2) ∧
    (bounds.back + SETTINGS.paddleLengthZ / 2 ≤ (q.updateAI dt targetZ speed bounds).z ∧
      (q.updateAI dt targetZ speed bounds).z ≤ bounds.front - SETTINGS.paddleLengthZ / 2) := by
  unfold Paddle.updatePlayer Paddle.updateAI
  exact ⟨clampWithin_mem _ _ h, clampWithin_mem _ _ h⟩

/-- Witness for C5 at the arena bounds, a large dt and a far target. -/
theorem C5_paddle_stays_in_band_witness :
    (arenaBounds.back + SETTINGS.paddleLengthZ / 2 ≤
      arenaBounds.front - SETTINGS.paddleLengthZ / 2) ∧
    ((arenaBounds.back + SETTINGS.paddleLengthZ / 2 ≤
        ((⟨-23, 0⟩ : Paddle).updatePlayer 100 true false arenaBounds).z ∧
      ((⟨-23, 0⟩ : Paddle).updatePlayer 100 true false arenaBounds).z ≤
        arenaBounds.front - SETTINGS.paddleLengthZ / 2) ∧
    (arenaBounds.back + SETTINGS.paddleLengthZ / 2 ≤
        ((⟨23, 0⟩ : Paddle).updateAI 100 1000 20 arenaBounds).z ∧
      ((⟨23, 0⟩ : Paddle).updateAI 100 1000 20 arenaBounds).z ≤
        arenaBounds.front - SETTINGS.paddleLengthZ / 2)) := by
  have h : arenaBounds.back + SETTINGS.paddleLengthZ / 2 ≤
      arenaBounds.front - SETTINGS.paddleLengthZ / 2 := by
    norm_num [arenaBounds, SETTINGS.paddleLengthZ, SETTINGS.worldDepth, SETTINGS.worldWidth]
  exact ⟨h, C5_paddle_stays_in_band ⟨-23, 0⟩ ⟨23, 0⟩ 100 1000 20 true false arenaBounds h⟩

/-- C10: calling `speedUpAndDeflect` while the velocity is (0, 0) leaves
the velocity (0, 0), for every outgoing direction and impact angle: the
new scalar speed is `min(0 * speedGainPerHit, speedMax) = 0`, so a paddle
deflection can never set a held ball in motion. -/
theorem C10_deflect_keeps_zero_velocity (b : BallState) (dir ang : ℝ)
    (hvx : b.vx = 0) (hvz : b.vz = 0) :
    (Ball.speedUpAndDeflect b dir ang).vx = 0 ∧ (Ball.speedUpAndDeflect b dir ang).vz = 0 := by
  unfold Ball.speedUpAndDeflect
  have hmin : min (Real.sqrt (b.vx ^ 2 + b.vz ^ 2) * SETTINGS.speedGainPerHit)
      SETTINGS.ballSpeedMax = 0 := by
    rw [hvx, hvz]
    norm_num [Real.sqrt_zero, SETTINGS.ballSpeedMax]
  simp [hmin]

/-- Witness for C10 at a held ball and a concrete deflection. -/
theorem C10_deflect_keeps_zero_velocity_witness :
    (⟨0, 0.8, 0, 0, 0⟩ : BallState).vx = 0 ∧
    (⟨0, 0.8, 0, 0, 0⟩ : BallState).vz = 0 ∧
    ((Ball.speedUpAndDeflect (⟨0, 0.8, 0, 0, 0⟩ : BallState) 1 0).vx = 0 ∧
      (Ball.speedUpAndDeflect (⟨0, 0.8, 0, 0, 0⟩ : BallState) 1 0).vz = 0) :=
  ⟨rfl, rfl, C10_deflect_keeps_zero_velocity ⟨0, 0.8, 0, 0, 0⟩ 1 0 rfl rfl⟩

/-- C7: when `Ball.update` performs a wall bounce, the horizontal velocity
component `vx` is unchanged, the z velocity component is negated, and the
speed magnitude is exactly preserved. -/
theorem C7_wall_bounce_elastic (b : BallState) (dt : ℝ) (bounds : Bounds)
    (h : WallBounced b dt bounds) :
    (Ball.update b dt bounds).vx = b.vx ∧
    (Ball.update b dt bounds).vz = -b.vz ∧
    speedOf (Ball.update b dt bounds) = speedOf b := by
  unfold WallBounced at h
  unfold Ball.update
  dsimp only
  split_ifs with h1 h2
  · refine ⟨rfl, rfl, ?_⟩
    unfold speedOf
    simp [neg_sq]
  · refine ⟨rfl, rfl, ?_⟩
    unfold speedOf
    simp [neg_sq]
  · exact absurd h (by push_neg; exact ⟨le_of_not_lt h1, le_of_not_lt h2⟩)

/-- Witness for C7 at a ball crossing the front wall of the arena. -/
theorem C7_wall_bounce_elastic_witness :
    WallBounced ⟨0, 0.8, 14.5, 0, 1⟩ 1 arenaBounds ∧
    ((Ball.update ⟨0, 0.8, 14.5, 0, 1⟩ 1 arenaBounds).vx =
        (⟨0, 0.8, 14.5, 0, 1⟩ : BallState).vx ∧
      (Ball.update ⟨0, 0.8, 14.5, 0, 1⟩ 1 arenaBounds).vz =
        -(⟨0, 0.8, 14.5, 0, 1⟩ : BallState).vz ∧
      speedOf (Ball.update ⟨0, 0.8, 14.5, 0, 1⟩ 1 arenaBounds) =
        speedOf ⟨0, 0.8, 14.5, 0, 1⟩) := by
  have h : WallBounced ⟨0, 0.8, 14.5, 0, 1⟩ 1 arenaBounds := by
    unfold WallBounced arenaBounds
    norm_num [SETTINGS.ballRadius, SETTINGS.worldDepth, SETTINGS.worldWidth]
  exact ⟨h, C7_wall_bounce_elastic ⟨0, 0.8, 14.5, 0, 1⟩ 1 arenaBounds h⟩

/-- Repeated paddle hits: fold `speedUpAndDeflect` over a list of
(outgoing direction, impact angle) pairs. -/
def applyHits (b : BallState) : List (ℝ × ℝ) → BallState
  | [] => b
  | hit :: rest => applyHits (Ball.speedUpAndDeflect b hit.1 hit.2) rest

/-- The speed magnitude is non-negative. -/
theorem speedOf_nonneg (b : BallState) : 0 ≤ speedOf b := Real.sqrt_nonneg _

/-- After `speedUpAndDeflect` with a unit horizontal direction, the speed
magnitude is exactly `min (speed * speedGainPerHit) speedMax`. -/
theorem speedOf_speedUpAndDeflect (b : BallState) (dir ang : ℝ)
    (hdir : dir = 1 ∨ dir = -1) :
    speedOf (Ball.speedUpAndDeflect b dir ang) =
      min (speedOf b * SETTINGS.speedGainPerHit) SETTINGS.ballSpeedMax := by
  have hdir2 : dir ^ 2 = 1 := by rcases hdir with h | h <;> rw [h] <;> norm_num
  unfold speedOf Ball.speedUpAndDeflect
  dsimp only
  set s := min (Real.sqrt (b.vx ^ 2 + b.vz ^ 2) * SETTINGS.speedGainPerHit)
    SETTINGS.ballSpeedMax with hs_def
  have hs : 0 ≤ s := by
    apply le_min
    · exact mul_nonneg (Real.sqrt_nonneg _) (by norm_num [SETTINGS.speedGainPerHit])
    · norm_num [SETTINGS.ballSpeedMax]
  have key : (Real.cos ang * s * dir) ^ 2 + (Real.sin ang * s) ^ 2 = s ^ 2 := by
    have h1 := Real.sin_sq_add_cos_sq ang
    calc (Real.cos ang * s * dir) ^ 2 + (Real.sin ang * s) ^ 2
        = (Real.sin ang ^ 2 + Real.cos ang ^ 2 * dir ^ 2) * s ^ 2 := by ring
      _ = (Real.sin ang ^ 2 + Real.cos ang ^ 2) * s ^ 2 := by rw [hdir2]; ring_nf
      _ = s ^ 2 := by rw [h1]; ring
  rw [key, Real.sqrt_sq hs]

/-- One hit never lifts the speed above the cap. -/
theorem speedOf_hit_le_cap (b : BallState) (dir ang : ℝ) (hdir : dir = 1 ∨ dir = -1) :
    speedOf (Ball.speedUpAndDeflect b dir ang) ≤ SETTINGS.ballSpeedMax := by
  rw [speedOf_speedUpAndDeflect b dir ang hdir]
  exact min_le_right _ _

/-- While at or below the cap, one hit never decreases the speed. -/
theorem speedOf_hit_mono (b : BallState) (dir ang : ℝ) (hdir : dir = 1 ∨ dir = -1)
    (hcap : speedOf b ≤ SETTINGS.ballSpeedMax) :
    speedOf b ≤ speedOf (Ball.speedUpAndDeflect b dir ang) := by
  rw [speedOf_speedUpAndDeflect b dir ang hdir]
  apply le_min
  · have h1 : (1 : ℝ) ≤ SETTINGS.speedGainPerHit := by norm_num [SETTINGS.speedGainPerHit]
    nlinarith [speedOf_nonneg b]
  · exact hcap

/-- C6: starting at a speed at most `speedMax`, any finite sequence of
paddle hits (each outgoing direction ±1, any impact angles) keeps the
speed at most `speedMax`, and a single hit leaves the speed greater than
or equal to the speed before the call. -/
theorem C6_speed_capped_and_monotone (b : BallState) (hits : List (ℝ × ℝ)) (dir ang : ℝ)
    (hcap : speedOf b ≤ SETTINGS.ballSpeedMax)
    (hdirs : ∀ hit ∈ hits, hit.1 = 1 ∨ hit.1 = -1)
    (hdir : dir = 1 ∨ dir = -1) :
    speedOf (applyHits b hits) ≤ SETTINGS.ballSpeedMax ∧
    speedOf b ≤ speedOf (Ball.speedUpAndDeflect b dir ang) := by
  refine ⟨?_, speedOf_hit_mono b dir ang hdir hcap⟩
  induction hits generalizing b with
  | nil => exact hcap
  | cons hit rest ih =>
      have hhit : hit.1 = 1 ∨ hit.1 = -1 := hdirs hit (List.mem_cons_self hit rest)
      have hrest : ∀ h2 ∈ rest, h2.1 = 1 ∨ h2.1 = -1 :=
        fun h2 hm => hdirs h2 (List.mem_cons_of_mem hit hm)
      exact ih (Ball.speedUpAndDeflect b hit.1 hit.2)
        (speedOf_hit_le_cap b hit.1 hit.2 hhit) hrest

/-- Witness for C6 at a held ball, one straight hit, direction +1. -/
theorem C6_speed_capped_and_monotone_witness :
    speedOf ⟨0, 0.8, 0, 0, 0⟩ ≤ SETTINGS.ballSpeedMax ∧
    (∀ hit ∈ [((1 : ℝ), (0 : ℝ))], hit.1 = 1 ∨ hit.1 = -1) ∧
    (speedOf (applyHits ⟨0, 0.8, 0, 0, 0⟩ [((1 : ℝ), (0 : ℝ))]) ≤ SETTINGS.ballSpeedMax ∧
      speedOf ⟨0, 0.8, 0, 0, 0⟩ ≤ speedOf (Ball.speedUpAndDeflect ⟨0, 0.8, 0, 0, 0⟩ 1 0)) := by
  have hcap : speedOf (⟨0, 0.8, 0, 0, 0⟩ : BallState) ≤ SETTINGS.ballSpeedMax := by
    unfold speedOf
    norm_num [Real.sqrt_zero, SETTINGS.ballSpeedMax]
  have hdirs : ∀ hit ∈ [((1 : ℝ), (0 : ℝ))], hit.1 = 1 ∨ hit.1 = -1 := by
    intro hit hm
    rw [List.mem_singleton] at hm
    rw [hm]
    left
    rfl
  exact ⟨hcap, hdirs,
    C6_speed_capped_and_monotone ⟨0, 0.8, 0, 0, 0⟩ [((1 : ℝ), (0 : ℝ))] 1 0 hcap hdirs
      (Or.inl rfl)⟩

/-- `clamp` lands in the interval when the interval is non-empty. -/
theorem clamp_mem (v lo hi : ℝ) (h : lo ≤ hi) : lo ≤ clamp v lo hi ∧ clamp v lo hi ≤ hi :=
  ⟨le_max_left _ _, max_le h (min_le_left _ _)⟩

/-- The clamped point is the closest point of the interval: its distance
to `v` is at most the distance from `v` to any point of the interval. -/
theorem abs_sub_clamp_le (v lo hi p : ℝ) (hlohi : lo ≤ hi) (hlo : lo ≤ p) (hhi : p ≤ hi) :
    |v - clamp v lo hi| ≤ |v - p| := by
  unfold clamp
  rcases le_total v hi with h1 | h1
  · rw [min_eq_right h1]
    rcases le_total lo v with h2 | h2
    · rw [max_eq_right h2]
      simp
    · rw [max_eq_left h2, abs_of_nonpos (by linarith), abs_of_nonpos (by linarith)]
      linarith
  · rw [min_eq_left h1, max_eq_right hlohi, abs_of_nonneg (by linarith),
      abs_of_nonneg (by linarith)]
    linarith

/-- From `|a| ≤ |b|` conclude `a * a ≤ b * b`. -/
theorem mul_self_le_of_abs_le (a b : ℝ) (h : |a| ≤ |b|) : a * a ≤ b * b := by
  calc a * a = |a| * |a| := (abs_mul_abs_self a).symm
    _ ≤ |b| * |b| := mul_self_le_mul_self (abs_nonneg a) h
    _ = b * b := abs_mul_abs_self b

/-- C8: `circleRectCollideXZ` holds iff some point of the axis-aligned
rectangle lies within the radius of the circle center (equivalently, the
distance to the nearest rectangle point is at most the radius, with the
tangent case included); and a center inside the rectangle always
collides. -/
theorem C8_collide_iff_rect_point_within_radius (cx cz r rx rz rw rd : ℝ)
    (hw : 0 ≤ rw) (hd : 0 ≤ rd) :
    (circleRectCollideXZ cx cz r rx rz rw rd ↔
      ∃ px pz, rx - rw / 2 ≤ px ∧ px ≤ rx + rw / 2 ∧ rz - rd / 2 ≤ pz ∧ pz ≤ rz + rd / 2 ∧
        (cx - px) * (cx - px) + (cz - pz) * (cz - pz) ≤ r * r) ∧
    ((rx - rw / 2 ≤ cx ∧ cx ≤ rx + rw / 2 ∧ rz - rd / 2 ≤ cz ∧ cz ≤ rz + rd / 2) →
      circleRectCollideXZ cx cz r rx rz rw rd) := by
  have hx : rx - rw / 2 ≤ rx + rw / 2 := by linarith
  have hz : rz - rd / 2 ≤ rz + rd / 2 := by linarith
  constructor
  · unfold circleRectCollideXZ
    dsimp only
    constructor
    · intro h
      exact ⟨clamp cx (rx - rw / 2) (rx + rw / 2), clamp cz (rz - rd / 2) (rz + rd / 2),
        (clamp_mem cx _ _ hx).1, (clamp_mem cx _ _ hx).2,
        (clamp_mem cz _ _ hz).1, (clamp_mem cz _ _ hz).2, h⟩
    · rintro ⟨px, pz, h1, h2, h3, h4, hle⟩
      have bx := mul_self_le_of_abs_le _ _ (abs_sub_clamp_le cx (rx - rw / 2) (rx + rw / 2) px hx h1 h2)
      have bz := mul_self_le_of_abs_le _ _ (abs_sub_clamp_le cz (rz - rd / 2) (rz + rd / 2) pz hz h3 h4)
      linarith
  · rintro ⟨h1, h2, h3, h4⟩
    unfold circleRectCollideXZ clamp
    dsimp only
    rw [min_eq_right h2, max_eq_right h1, min_eq_right h4, max_eq_right h3]
    simpa using mul_self_nonneg r

/-- Witness for C8 at a circle exactly tangent to the right edge of a
4 x 4 rectangle. -/
theorem C8_collide_iff_rect_point_within_radius_witness :
    (0 : ℝ) ≤ 4 ∧
    ((circleRectCollideXZ 3 0 1 0 0 4 4 ↔
      ∃ px pz, (0 : ℝ) - 4 / 2 ≤ px ∧ px ≤ 0 + 4 / 2 ∧ (0 : ℝ) - 4 / 2 ≤ pz ∧
        pz ≤ 0 + 4 / 2 ∧ (3 - px) * (3 - px) + (0 - pz) * (0 - pz) ≤ 1 * 1) ∧
    (((0 : ℝ) - 4 / 2 ≤ 3 ∧ (3 : ℝ) ≤ 0 + 4 / 2 ∧ (0 : ℝ) - 4 / 2 ≤ 0 ∧ (0 : ℝ) ≤ 0 + 4 / 2) →
      circleRectCollideXZ 3 0 1 0 0 4 4)) :=
  ⟨by norm_num, C8_collide_iff_rect_point_within_radius 3 0 1 0 0 4 4 (by norm_num) (by norm_num)⟩

/-- C2 (code defect evidence): at a ball one unit below the front wall and
moving toward it, the wall-bounce branch of `Ball.update` fires (the state
change negates `vz`), yet the value the caller receives from
`Ball.update` is `undefined` (`none`), not a boolean — so the
orchestrator's `wallBounce` flag is never truthy. -/
theorem C2_update_bounce_but_undefined_return :
    WallBounced ⟨0, 0.8, 14.5, 0, 1⟩ 1 arenaBounds ∧
    (Ball.update ⟨0, 0.8, 14.5, 0, 1⟩ 1 arenaBounds).vz = -1 ∧
    Ball.updateReturnValue ⟨0, 0.8, 14.5, 0, 1⟩ 1 arenaBounds = none ∧
    (Ball.updateReturnValue ⟨0, 0.8, 14.5, 0, 1⟩ 1 arenaBounds).getD false = false := by
  refine ⟨?_, ?_, rfl, rfl⟩
  · unfold WallBounced arenaBounds
    norm_num [SETTINGS.ballRadius, SETTINGS.worldDepth]
  · unfold Ball.update arenaBounds
    norm_num [SETTINGS.ballRadius, SETTINGS.worldDepth, SETTINGS.ballY]

/-- C1 (code defect evidence): on a single running tick with the ball at
the center moving at vx = 1 and dt = 1, far from any wall, paddle or
boundary, the tick of the latest revision advances the ball's x by
2 * vx * dt (two `Ball.update` calls), not by the single vx * dt step of
one integration. -/
theorem C1_tick_double_integrates :
    ((Game.tick ⟨false, 0, 0, ⟨-23, 0⟩, ⟨23, 0⟩, ⟨0, 0.8, 0, 1, 0⟩, ⟨false, false, false⟩⟩
        1 0 0).1).ball.x = 2 ∧
    (⟨0, 0.8, 0, 1, 0⟩ : BallState).x + (⟨0, 0.8, 0, 1, 0⟩ : BallState).vx * 1 = 1 := by
  constructor
  · norm_num [Game.tick, Game.serveIfRequested, Game.updateAI, Game.handlePaddleCollisions,
      Game.handleScoring, Game.resetPoint, Paddle.updatePlayer, Paddle.updateAI,
      Paddle.clampWithin, Paddle.setZ, Ball.update, Ball.updateReturnValue,
      Ball.speedUpAndDeflect, circleRectCollideXZ, clamp, arenaBounds,
      SETTINGS.worldWidth, SETTINGS.worldDepth, SETTINGS.paddleWidthX, SETTINGS.paddleLengthZ,
      SETTINGS.paddleSpeed, SETTINGS.ballRadius, SETTINGS.ballY, SETTINGS.aiMaxSpeed,
      SETTINGS.returnToCenterSpeed, SETTINGS.trackOnlyWhenIncoming,
      InputState.consumeServePressed, min_def, max_def]
  · norm_num

/-- C4 (code defect evidence): on a tick in which the player's scoring
counter changes (ball past the right boundary), the orchestrator's
complete list of collaborator calls is the score display update, the
center message and the score sound — it contains no invocation of the
win-condition evaluator. -/
theorem C4_score_changes_without_win_check :
    ((Game.tick ⟨false, 0, 0, ⟨-23, 0⟩, ⟨23, 0⟩, ⟨26, 0.8, 10, 1, 0⟩, ⟨false, false, false⟩⟩
        1 0 0).1).playerScore = 1 ∧
    (⟨false, 0, 0, ⟨-23, 0⟩, ⟨23, 0⟩, ⟨26, 0.8, 10, 1, 0⟩,
        ⟨false, false, false⟩⟩ : GameState).playerScore = 0 ∧
    (Game.tick ⟨false, 0, 0, ⟨-23, 0⟩, ⟨23, 0⟩, ⟨26, 0.8, 10, 1, 0⟩, ⟨false, false, false⟩⟩
        1 0 0).2 =
      [Effect.setScore 1 0, Effect.setCenterMessage "Point! Press Space to serve",
        Effect.playPlayerScore] ∧
    ((Game.tick ⟨false, 0, 0, ⟨-23, 0⟩, ⟨23, 0⟩, ⟨26, 0.8, 10, 1, 0⟩, ⟨false, false, false⟩⟩
        1 0 0).2).filter Effect.isWinCheck = [] := by
  have key : (Game.tick ⟨false, 0, 0, ⟨-23, 0⟩, ⟨23, 0⟩, ⟨26, 0.8, 10, 1, 0⟩,
      ⟨false, false, false⟩⟩ 1 0 0).2 =
      [Effect.setScore 1 0, Effect.setCenterMessage "Point! Press Space to serve",
        Effect.playPlayerScore] := by
    norm_num [Game.tick, Game.serveIfRequested, Game.updateAI, Game.handlePaddleCollisions,
      Game.handleScoring, Game.resetPoint, Paddle.updatePlayer, Paddle.updateAI,
      Paddle.clampWithin, Paddle.setZ, Ball.update, Ball.updateReturnValue,
      Ball.resetPosition, Ball.speedUpAndDeflect, circleRectCollideXZ, clamp, arenaBounds,
      SETTINGS.worldWidth, SETTINGS.worldDepth, SETTINGS.paddleWidthX, SETTINGS.paddleLengthZ,
      SETTINGS.paddleSpeed, SETTINGS.ballRadius, SETTINGS.ballY, SETTINGS.aiMaxSpeed,
      SETTINGS.returnToCenterSpeed, SETTINGS.trackOnlyWhenIncoming,
      InputState.consumeServePressed, min_def, max_def]
  refine ⟨?_, rfl, key, ?_⟩
  · norm_num [Game.tick, Game.serveIfRequested, Game.updateAI, Game.handlePaddleCollisions,
      Game.handleScoring, Game.resetPoint, Paddle.updatePlayer, Paddle.updateAI,
      Paddle.clampWithin, Paddle.setZ, Ball.update, Ball.updateReturnValue,
      Ball.resetPosition, Ball.speedUpAndDeflect, circleRectCollideXZ, clamp, arenaBounds,
      SETTINGS.worldWidth, SETTINGS.worldDepth, SETTINGS.paddleWidthX, SETTINGS.paddleLengthZ,
      SETTINGS.paddleSpeed, SETTINGS.ballRadius, SETTINGS.ballY, SETTINGS.aiMaxSpeed,
      SETTINGS.returnToCenterSpeed, SETTINGS.trackOnlyWhenIncoming,
      InputState.consumeServePressed, min_def, max_def]
  · rw [key]
    rfl
